import Mathlib

/-!
Verification model of the logfunc-to-logger rewrite engine of the
`refactoring_tools` repository.

The definitions below are a shallow embedding of the Python sources
`wsf_refactoring_tools/codemods/remove_logfunc.py` (the classes
`ReplaceFuncWithLoggerCommand`) and `src/codemods/add_global_statements.py`
(the class `AddGlobalStatements`).  Conventions of the embedding:

* libcst `SimpleString` nodes carry their evaluated text (the Python code
  stores source text with quotes and applies `ast.literal_eval` / `repr` at
  the boundaries; both round-trip, so the model works with evaluated text
  throughout).
* Python `dict` values are association lists, Python `set`s are lists with
  set-like insertion (`pySetAdd`) and removal (`List.filter`).
* Scopes (libcst `Scope` metadata objects) are natural-number identifiers
  with an explicit `parent : Nat → Nat` map; `scope is parent` identity in
  Python becomes equality of identifiers.
* Fallible code returns `Except PyError`; code whose loops may not
  terminate additionally returns `Option` driven by an explicit fuel
  argument (`none` means fuel exhausted, i.e. the loop is still running).
-/

/-- Log-level names recognized by the rewriter
(`remove_logfunc.py`, `LOGLEVELS`, line 9). -/
def LOGLEVELS : List String :=
  ["DEBUG", "INFO", "WARNING", "WARN", "ERROR", "CRITICAL", "FATAL"]

/-- Errors surfaced by the transform.  `logFuncReplace` models
`ReplaceFuncWithLoggerCommand.LogFuncReplaceException`; `pythonTypeError`
and `pythonAttributeError` model exceptions raised by the Python runtime
itself when the code calls a function or method incorrectly. -/
inductive PyError where
  | logFuncReplace (msg : String)
  | pythonTypeError (msg : String)
  | pythonAttributeError (msg : String)
deriving DecidableEq, Repr

/-- Model of `ReplaceFuncWithLoggerCommand.raise_at_node` (lines 158-162):
the raised `LogFuncReplaceException` message carries the node start
position as reported by the `PositionProvider` metadata. -/
def raise_at_node (pos : Nat × Nat) (msg : String) : PyError :=
  .logFuncReplace (msg ++ " :: line " ++ toString pos.1 ++ ", column " ++ toString pos.2)

/-- The libcst expression shapes the rewriter distinguishes.  `formatCall`
stands for `m.Call(func=m.Attribute(attr=m.Name("format")))` with the
attribute receiver and the call arguments; `call` stands for any other
call expression whose callee is not a known log-function name (only its
argument list matters, for the exception-reference counter — a nested
call to a known log-function name would push its own counter in the
source and is not modeled); every expression that is neither a string,
a name nor a call is `other` (such expressions contain no `Arg` nodes,
so they contribute nothing to any hook). -/
inductive CSTExpr where
  | simpleString (value : String)
  | name (value : String)
  | formatCall (receiver : CSTExpr) (args : List (Option String × CSTExpr))
  | call (args : List (Option String × CSTExpr))
  | other

/-- A libcst `Arg`: optional keyword and the argument value. -/
abbrev CSTArg := Option String × CSTExpr

/-- The callee shapes the visitors distinguish: `m.Call(func=m.Name())`
fires the logfunc hooks, calls on an attribute (such as `logger.info`)
do not. -/
inductive CSTFunc where
  | name (value : String)
  | attribute (base : String) (attr : String)

/-- A libcst `Call` node together with its `PositionProvider` start
position. -/
structure CSTCall where
  func : CSTFunc
  args : List CSTArg := []
  pos : Nat × Nat := (1, 0)

/-- Model of the `CSTString` dataclass of `remove_logfunc.py`
(lines 12-16). -/
structure CSTString where
  name : Option String := none
  literal : Option String := none
  format_args : List CSTArg := []

/-- The `_string_varnames` registry: variable name to scope map; a scope
maps to the recorded `Assign` node (as an identifier) or to `None` when no
postprocessing is needed.  The outer `Option` mirrors the dead
`if map is None` check in `ensure_assigned_format_is_percent`. -/
abbrev VarMap := List (String × Option (List (Nat × Option Nat)))

/-- Python `set.add` on a list model: no-op when the element is present. -/
def pySetAdd {α : Type} [DecidableEq α] (x : α) (s : List α) : List α :=
  if x ∈ s then s else s ++ [x]

/-- Model of Python `str.lower` for the ASCII identifiers that occur in
this code base (log-level names, `file`/`File`). -/
def pyLower (s : String) : String := String.mk (s.data.map Char.toLower)

/-- The opening brace character, written by code point to keep brace
characters out of the source text. -/
def lbrace : Char := Char.ofNat 123

/-- The closing brace character, written by code point. -/
def rbrace : Char := Char.ofNat 125

/-- Model of Python `str.replace(pattern, replacement)` specialized to the
fixed two-character pattern brace-open brace-close and replacement `%s`,
as used on lines 287 and 431 of `remove_logfunc.py`: left-to-right
replacement of non-overlapping occurrences. -/
def replaceBracesAux : List Char → List Char
  | [] => []
  | [c] => [c]
  | c :: d :: rest =>
    if c = lbrace ∧ d = rbrace then '%' :: 's' :: replaceBracesAux rest
    else c :: replaceBracesAux (d :: rest)

/-- String-level wrapper for `replaceBracesAux`. -/
def pyReplaceBracePercent (s : String) : String := String.mk (replaceBracesAux s.data)

/-- Model of CPython percent-interpolation success for the trial
substitution `fmt % tuple("string" for _ in args)` on line 433 of
`remove_logfunc.py`.  The scanner consumes one argument per `%s`
conversion and treats `%%` as a literal percent; any other conversion
character is modeled as failure, which agrees with CPython on every
format string whose percent signs stem solely from the brace-to-`%s`
substitution (the only case the theorems below apply it to, enforced
where needed by a no-percent hypothesis on the original template). -/
def percentScan : List Char → Nat → Option Nat
  | [], n => some n
  | [c], n => if c = '%' then none else some n
  | c :: d :: rest, n =>
    if c = '%' then
      if d = 's' then
        match n with
        | 0 => none
        | Nat.succ k => percentScan rest k
      else if d = '%' then percentScan rest n
      else none
    else percentScan (d :: rest) n

/-- The trial interpolation succeeds exactly when the scan consumes every
supplied argument: CPython raises `TypeError` both when arguments are left
over ("not all arguments converted") and when they run out. -/
def trial_percent_ok (s : String) (nargs : Nat) : Bool :=
  match percentScan s.data nargs with
  | some 0 => true
  | _ => false

/-- Whether an optional string literal is one of the recognized log-level
names (`comps.literal in LOGLEVELS`, line 241; Python `None in LOGLEVELS`
is false). -/
def isLoglevelLit : Option String → Bool
  | some l => decide (l ∈ LOGLEVELS)
  | none => false

/-- Whether the classifier's name component is the `file`/`File` literal
(`comps.name is not None and comps.name.value.lower() == "file"`,
line 245). -/
def isFileRef : Option String → Bool
  | some n => pyLower n = "file"
  | none => false

/-- Model of `ReplaceFuncWithLoggerCommand.get_string_components`
(lines 214-232): recognize a string literal, a `X.format(...)` call, or a
bare name previously recorded in `_string_varnames`. -/
def get_string_components (vars : VarMap) : CSTExpr → Option CSTString
  | .simpleString v => some { literal := some v }
  | .formatCall recv args =>
    match recv with
    | .simpleString v => some { literal := some v, format_args := args }
    | .name n =>
      if (vars.lookup n).isSome then some { name := some n, format_args := args }
      else some { format_args := args }
    | _ => some { format_args := args }
  | .name n => if (vars.lookup n).isSome then some { name := some n } else none
  | .call _ => none
  | .other => none

/-- Model of the argument loop of
`ReplaceFuncWithLoggerCommand.get_logfunc_arguments` (lines 236-258).
The accumulated state is the candidate log level, the candidate message
and the unrecognized-argument count.  On a second log-level literal the
source executes `self.raise_at_node("Multiple loglevels in logfunc call")`
which omits the required `msg` parameter of `raise_at_node(self, node,
msg)`, so the Python runtime raises a `TypeError` before any
`LogFuncReplaceException` can be constructed; the model returns that
`TypeError`. -/
def classify_logfunc_args (vars : VarMap) (handled : List String)
    (loglevel : Option String) (mg : Option CSTString) (unrecognized : Nat) :
    List CSTArg → Except PyError (Option String × Option CSTString × Nat)
  | [] => .ok (loglevel, mg, unrecognized)
  | a :: rest =>
    match get_string_components vars a.2 with
    | some comps =>
      if isLoglevelLit comps.literal then
        if loglevel.isSome then
          .error (.pythonTypeError
            "raise_at_node() missing 1 required positional argument: msg")
        else classify_logfunc_args vars handled comps.literal mg unrecognized rest
      else if isFileRef comps.name then
        classify_logfunc_args vars handled loglevel mg unrecognized rest
      else if mg.isNone then
        classify_logfunc_args vars handled loglevel (some comps) unrecognized rest
      else
        classify_logfunc_args vars handled loglevel mg (unrecognized + 1) rest
    | none =>
      match a.2 with
      | .name n =>
        if n ∈ handled then classify_logfunc_args vars handled loglevel mg unrecognized rest
        else classify_logfunc_args vars handled loglevel mg (unrecognized + 1) rest
      | _ => classify_logfunc_args vars handled loglevel mg (unrecognized + 1) rest

/-- Model of `ReplaceFuncWithLoggerCommand.get_logfunc_arguments`
(lines 234-265): run the argument loop, then fail with the positioned
"Malformed logfunc call" error when either the message or the log level
is missing.  The unrecognized-argument count only feeds a non-fatal
warning in the source and is dropped here. -/
def get_logfunc_arguments (vars : VarMap) (handled : List String) (pos : Nat × Nat)
    (args : List CSTArg) : Except PyError (String × CSTString) :=
  match classify_logfunc_args vars handled none none 0 args with
  | .error e => .error e
  | .ok (loglevel, mg, _unrec) =>
    match mg, loglevel with
    | some mgv, some ll => .ok (ll, mgv)
    | _, _ => .error (raise_at_node pos "Malformed logfunc call")

/-- One step per iteration of the `while scope not in map` loop of
`ReplaceFuncWithLoggerCommand.ensure_assigned_format_is_percent`
(lines 206-211).  The loop body computes `parent = scope.parent` and
raises when `scope is parent`, but it never assigns the parent back to
`scope`, so the recursive call keeps `scope` unchanged, exactly as the
source does; the fuel argument counts loop iterations and `none` means
the loop is still running. -/
def scopeWalk (scopeMap : List (Nat × Option Nat)) (parent : Nat → Nat)
    (pos : Nat × Nat) (scope : Nat) : Nat → Option (Except PyError Nat)
  | 0 => none
  | Nat.succ fuel =>
    if (scopeMap.lookup scope).isSome then some (.ok scope)
    else
      if scope = parent scope then
        some (.error (raise_at_node pos "Could not find scope of string variable definition"))
      else scopeWalk scopeMap parent pos scope fuel

/-- Model of `ReplaceFuncWithLoggerCommand.ensure_assigned_format_is_percent`
(lines 199-212): look the name up in `_string_varnames`, return silently
when it is absent or its map is `None`, otherwise run the scope loop and
add the recorded assignment node (`map[scope]`) to `_postprocess`. -/
def ensure_assigned_format_is_percent (vars : VarMap) (postprocess : List (Option Nat))
    (parent : Nat → Nat) (pos : Nat × Nat) (useScope : Nat) (nm : String) (fuel : Nat) :
    Option (Except PyError (List (Option Nat))) :=
  match vars.lookup nm with
  | none => some (.ok postprocess)
  | some none => some (.ok postprocess)
  | some (some scopeMap) =>
    match scopeWalk scopeMap parent pos useScope fuel with
    | none => none
    | some (.error e) => some (.error e)
    | some (.ok sc) => some (.ok (pySetAdd ((scopeMap.lookup sc).getD none) postprocess))

/-- Model of `ReplaceFuncWithLoggerCommand.push_named_exception`
(lines 343-350): `self._handled_exceptions.add(exc_name)` on a flat
Python set. -/
def push_named_exception (handled : List String) (excName : String) : List String :=
  pySetAdd excName handled

/-- Model of `ReplaceFuncWithLoggerCommand.pop_named_exception`
(lines 352-359): `self._handled_exceptions.discard(exc_name)` on the same
flat set. -/
def pop_named_exception (handled : List String) (excName : String) : List String :=
  handled.filter (fun x => x != excName)

/-- Contribution of a single `Arg` node to `set_exc_context`
(lines 361-366): one when the argument value is a bare name currently in
`_handled_exceptions`, zero otherwise. -/
def argNameExcRef (handled : List String) (a : CSTArg) : Nat :=
  match a.2 with
  | .name n => if n ∈ handled then 1 else 0
  | _ => 0

mutual
/-- `Arg(value=Name)` occurrences with a handled-exception name inside one
expression, at every depth: a `.format(...)` call contributes the
occurrences inside its receiver expression and inside its argument list,
any other call contributes the occurrences inside its argument list, and
strings, names and argument-free expressions contribute none. -/
def set_exc_context_expr (handled : List String) : CSTExpr → Nat
  | .formatCall recv args =>
      set_exc_context_expr handled recv + set_exc_context_args handled args
  | .call args => set_exc_context_args handled args
  | .simpleString _ => 0
  | .name _ => 0
  | .other => 0

/-- `Arg(value=Name)` occurrences with a handled-exception name inside an
argument list, at every depth: each argument contributes one when its own
value is such a name, plus the occurrences nested inside its value. -/
def set_exc_context_args (handled : List String) : List CSTArg → Nat
  | [] => 0
  | (k, v) :: rest =>
      argNameExcRef handled (k, v) + set_exc_context_expr handled v +
        set_exc_context_args handled rest
end

/-- Net value of the per-call exception-reference counter for one logfunc
call: `enter_logfunc_context` pushes `0`, `set_exc_context`
(`m.call_if_inside(m.Call(func=m.Name()))` + `m.visit(m.Arg(value=m.Name()))`,
lines 361-366) increments it for every `Arg` node at any depth inside the
call whose value is a bare name in `_handled_exceptions`, and
`change_logfunc_to_logger` pops it.  The recursive sum below ranges over
exactly those `Arg` nodes; it equals the popped value for any call whose
subtree contains no nested call to a known log-function name (such a
nested call would push and receive its own counter in the source). -/
def set_exc_context_total (handled : List String) (args : List CSTArg) : Nat :=
  set_exc_context_args handled args

/-- Label used for the exception-log replacement (lines 386-406): the
qualified name of the innermost enclosing function, `"Module"` when no
function is open, and `"UNKNOWN"` when the `QualifiedNameProvider`
returned an empty set for the innermost function.  Each entry of
`functionContext` is the list of qualified names the metadata provider
reports for that pushed `FunctionDef`; `set.pop()` takes an arbitrary
element, modeled as the head. -/
def currentExcLabel (functionContext : List (List String)) : String :=
  match functionContext.getLast? with
  | none => "Module"
  | some quals =>
    match quals with
    | [] => "UNKNOWN"
    | q :: _ => q

/-- The traversal state of `ReplaceFuncWithLoggerCommand.__init__`
(lines 179-197) that the call-rewriting path reads. -/
structure RewriterState where
  logfuncs : List String := []
  loggerName : String := "logger"
  stringVarnames : VarMap := []
  handledExceptions : List String := []
  functionContext : List (List String) := []
  postprocess : List (Option Nat) := []

/-- The message-resolution block of `change_logfunc_to_logger`
(lines 426-438): when the message has format arguments, either schedule
postprocessing of a named template (`ensure_assigned_format_is_percent`)
or convert an inline literal template by replacing every brace pair with
`%s` and validating the result with the trial percent interpolation.
With no format arguments the message passes through untouched.  Returns
the (possibly converted) message together with the updated
`_postprocess` state. -/
def convert_message (vars : VarMap) (postprocess : List (Option Nat)) (parent : Nat → Nat)
    (pos : Nat × Nat) (useScope fuel : Nat) (mg : CSTString) :
    Option (Except PyError (CSTString × List (Option Nat))) :=
  match mg.format_args with
  | [] => some (.ok (mg, postprocess))
  | _ :: _ =>
    match mg.name with
    | some nm =>
      match ensure_assigned_format_is_percent vars postprocess parent pos useScope nm fuel with
      | none => none
      | some (.error e) => some (.error e)
      | some (.ok pp) => some (.ok (mg, pp))
    | none =>
      match mg.literal with
      | none => some (.error (.pythonAttributeError
          "NoneType object has no attribute replace"))
      | some lit =>
        let conv := pyReplaceBracePercent lit
        if trial_percent_ok conv mg.format_args.length then
          some (.ok ({ mg with literal := some conv }, postprocess))
        else
          some (.error (raise_at_node pos
            "Failed to convert str.format() call to %-style format string"))

/-- The replacement's first argument (lines 439-443):
`msg.name if msg.name is not None else cst.SimpleString(repr(msg.literal))`.
When both components are absent the source would hand `repr(None)` to
`cst.SimpleString`, which no theorem below reaches; that corner is mapped
to `CSTExpr.other`. -/
def message_fmt_node (mg : CSTString) : CSTExpr :=
  match mg.name with
  | some nm => .name nm
  | none =>
    match mg.literal with
    | some lit => .simpleString lit
    | none => .other

/-- Model of `ReplaceFuncWithLoggerCommand.change_logfunc_to_logger`
(lines 374-451) after the known-name guard, with `excCount` the popped
per-call exception-reference counter: classify the arguments first; when
the counter is positive emit
`<logger_name>.exception("Error in function: <label>", exc_info=True)`;
otherwise resolve the message and emit
`logger.<loglevel lowercased>(<message>, *format_args)` — the normal
branch writes the fixed name `"logger"` (line 447) rather than
`self._logger_name`. -/
def change_logfunc_to_logger (st : RewriterState) (parent : Nat → Nat)
    (useScope fuel excCount : Nat) (c : CSTCall) :
    Option (Except PyError (CSTCall × List (Option Nat))) :=
  match get_logfunc_arguments st.stringVarnames st.handledExceptions c.pos c.args with
  | .error e => some (.error e)
  | .ok (loglevel, mg) =>
    if 0 < excCount then
      some (.ok ({ c with
        func := .attribute st.loggerName "exception",
        args := [(none, .simpleString
                    ("Error in function: " ++ currentExcLabel st.functionContext)),
                 (some "exc_info", .name "True")] }, st.postprocess))
    else
      match convert_message st.stringVarnames st.postprocess parent c.pos useScope fuel mg with
      | none => none
      | some (.error e) => some (.error e)
      | some (.ok (mg2, pp)) =>
        some (.ok ({ c with
          func := .attribute "logger" (pyLower loglevel),
          args := (none, message_fmt_node mg2) :: mg2.format_args }, pp))

/-- Net effect of the visitor hooks on one `Call` node: the hooks
`enter_logfunc_context`/`change_logfunc_to_logger` only fire for
`m.Call(func=m.Name())`, and `change_logfunc_to_logger` returns the node
unchanged when the callee is not a known log-function name (lines
379-380).  For a known name, the popped counter equals
`set_exc_context_total` of the call's arguments. -/
def processCall (st : RewriterState) (parent : Nat → Nat) (useScope fuel : Nat)
    (c : CSTCall) : Option (Except PyError (CSTCall × List (Option Nat))) :=
  match c.func with
  | .attribute _ _ => some (.ok (c, st.postprocess))
  | .name f =>
    if f ∈ st.logfuncs then
      change_logfunc_to_logger st parent useScope fuel
        (set_exc_context_total st.handledExceptions c.args) c
    else
      some (.ok (c, st.postprocess))

/-- Model of `AddGlobalStatements.add_global_statement` (lines 20-29 of
`add_global_statements.py`): fetch the scheduled list from the context
scratch and `append` the new statement — a plain list append with no
deduplication. -/
def add_global_statement (scheduled : List String) (statement : String) : List String :=
  scheduled ++ [statement]

/-- Model of `ReplaceFuncWithLoggerCommand.replace_logfunc`
(lines 168-173): `context.scratch.setdefault(KEY, set()).add(name)` — a
Python set add, hence idempotent. -/
def replace_logfunc (names : List String) (nm : String) : List String :=
  pySetAdd nm names

/-- Model of `ReplaceFuncWithLoggerCommand.check_global_scope_for_logger`
(lines 267-279), the `visit_Module` hook: raise when the configured
logger name is already bound in the module's global scope, otherwise
schedule the module-level `getLogger` assignment. -/
def check_global_scope_for_logger (loggerName : String) (globalScopeNames : List String)
    (scheduled : List String) : Except PyError (List String) :=
  if loggerName ∈ globalScopeNames then
    .error (.logFuncReplace ("Module scope already contains the name " ++ loggerName))
  else
    .ok (add_global_statement scheduled (loggerName ++ " = logging.getLogger(__name__)"))

/-- A module-body statement for the scheduler model: either one of the
module's original statements (by identifier) or a statement parsed from a
scheduled source string (`cst.parse_statement(s)` in `leave_Module`). -/
inductive Stmt where
  | orig (id : Nat)
  | parsed (source : String)
deriving DecidableEq, Repr

/-- Model of `AddGlobalStatements.leave_Module` (lines 58-77): split the
module body around the import block (via the external libcst helpers,
abstracted as the `pre`/`post` statement lists) and splice in every
scheduled statement, in scheduling order, with no deduplication.  The
blank-line bookkeeping of `_ensure_blank_first_line` only touches
whitespace and is not modeled. -/
def leave_Module_addGlobal (scheduled : List String) (pre post : List Stmt) : List Stmt :=
  match scheduled with
  | [] => pre ++ post
  | _ :: _ => pre ++ scheduled.map Stmt.parsed ++ post

/-- A module for the re-run model: the names bound in its global scope
and the `Call` nodes the visitor will dispatch on. -/
structure PyModule where
  scopeNames : List String := []
  calls : List CSTCall := []

/-- Fold `processCall` over a list of call nodes, threading the
`_postprocess` state and propagating fatal errors, which abort the
module's transformation. -/
def processCallList (st : RewriterState) (parent : Nat → Nat) (useScope fuel : Nat) :
    List CSTCall → Option (Except PyError (List CSTCall × List (Option Nat)))
  | [] => some (.ok ([], st.postprocess))
  | c :: cs =>
    match processCall st parent useScope fuel c with
    | none => none
    | some (.error e) => some (.error e)
    | some (.ok (c2, pp)) =>
      match processCallList { st with postprocess := pp } parent useScope fuel cs with
      | none => none
      | some (.error e) => some (.error e)
      | some (.ok (cs2, pp2)) => some (.ok (c2 :: cs2, pp2))

/-- One module pass of the rewriter: the `visit_Module` collision check
runs first (fail fast), then every call node is dispatched; the result is
the rewritten call nodes and the scheduled global statements. -/
def transformModule (st : RewriterState) (parent : Nat → Nat) (useScope fuel : Nat)
    (scheduled : List String) (mdl : PyModule) :
    Option (Except PyError (List CSTCall × List String)) :=
  match check_global_scope_for_logger st.loggerName mdl.scopeNames scheduled with
  | .error e => some (.error e)
  | .ok sched2 =>
    match processCallList st parent useScope fuel mdl.calls with
    | none => none
    | some (.error e) => some (.error e)
    | some (.ok (cs, _pp)) => some (.ok (cs, sched2))

/-- `isLoglevelLit` on a literal that is a recognized level name. -/
theorem isLoglevelLit_pos {l : String} (h : l ∈ LOGLEVELS) : isLoglevelLit (some l) = true := by
  simp [isLoglevelLit, h]

/-- `isLoglevelLit` on a literal that is not a recognized level name. -/
theorem isLoglevelLit_neg {l : String} (h : l ∉ LOGLEVELS) : isLoglevelLit (some l) = false := by
  simp [isLoglevelLit, h]

/-- Classification of the canonical two-argument shape
`func(<template>.format(...), "<LEVEL>")`: the template call becomes the
message, the level literal becomes the log level, nothing is
unrecognized. -/
theorem classify_template_level (vars : VarMap) (handled : List String)
    (tmpl lvl : String) (fargs : List CSTArg) (k1 k2 : Option String)
    (htmpl : tmpl ∉ LOGLEVELS) (hlvl : lvl ∈ LOGLEVELS) :
    classify_logfunc_args vars handled none none 0
      [(k1, .formatCall (.simpleString tmpl) fargs), (k2, .simpleString lvl)]
      = .ok (some lvl, some { literal := some tmpl, format_args := fargs }, 0) := by
  simp [classify_logfunc_args, get_string_components, isLoglevelLit_neg htmpl,
    isLoglevelLit_pos hlvl, isFileRef]

/-- Normal-branch behaviour of the rewriter on the canonical template
shape when the trial interpolation succeeds: the call is replaced by
`logger.<level lowercased>(<converted template>, *format_args)`. -/
theorem processCall_template_normal (st : RewriterState) (parent : Nat → Nat)
    (useScope fuel : Nat) (f tmpl lvl : String) (fargs : List CSTArg)
    (pos : Nat × Nat) (k1 k2 : Option String)
    (hf : f ∈ st.logfuncs) (hlvl : lvl ∈ LOGLEVELS) (htmpl : tmpl ∉ LOGLEVELS)
    (hexc : set_exc_context_total st.handledExceptions
      [(k1, .formatCall (.simpleString tmpl) fargs), (k2, .simpleString lvl)] = 0)
    (hne : fargs ≠ [])
    (hok : trial_percent_ok (pyReplaceBracePercent tmpl) fargs.length = true) :
    processCall st parent useScope fuel
      ⟨.name f, [(k1, .formatCall (.simpleString tmpl) fargs), (k2, .simpleString lvl)], pos⟩
      = some (.ok (⟨.attribute "logger" (pyLower lvl),
                    (none, .simpleString (pyReplaceBracePercent tmpl)) :: fargs, pos⟩,
                   st.postprocess)) := by
  cases fargs with
  | nil => exact absurd rfl hne
  | cons a as =>
    simp only [List.length_cons] at hok
    simp [processCall, hf, change_logfunc_to_logger, get_logfunc_arguments,
      classify_template_level st.stringVarnames st.handledExceptions tmpl lvl _ k1 k2 htmpl hlvl,
      hexc, convert_message, hok, message_fmt_node]

/-- Normal-branch behaviour of the rewriter on the canonical template
shape when the trial interpolation fails: the positioned conversion error
is raised. -/
theorem processCall_template_fatal (st : RewriterState) (parent : Nat → Nat)
    (useScope fuel : Nat) (f tmpl lvl : String) (fargs : List CSTArg)
    (pos : Nat × Nat) (k1 k2 : Option String)
    (hf : f ∈ st.logfuncs) (hlvl : lvl ∈ LOGLEVELS) (htmpl : tmpl ∉ LOGLEVELS)
    (hexc : set_exc_context_total st.handledExceptions
      [(k1, .formatCall (.simpleString tmpl) fargs), (k2, .simpleString lvl)] = 0)
    (hne : fargs ≠ [])
    (hbad : trial_percent_ok (pyReplaceBracePercent tmpl) fargs.length = false) :
    processCall st parent useScope fuel
      ⟨.name f, [(k1, .formatCall (.simpleString tmpl) fargs), (k2, .simpleString lvl)], pos⟩
      = some (.error (raise_at_node pos
          "Failed to convert str.format() call to %-style format string")) := by
  cases fargs with
  | nil => exact absurd rfl hne
  | cons a as =>
    simp only [List.length_cons] at hbad
    simp [processCall, hf, change_logfunc_to_logger, get_logfunc_arguments,
      classify_template_level st.stringVarnames st.handledExceptions tmpl lvl _ k1 k2 htmpl hlvl,
      hexc, convert_message, hbad]

/-- Exception-branch behaviour of the rewriter: when classification
succeeds and the popped exception-reference counter is positive, the call
becomes `<logger name>.exception("Error in function: <label>",
exc_info=True)`. -/
theorem processCall_exception (st : RewriterState) (parent : Nat → Nat) (useScope fuel : Nat)
    (f lvl : String) (args : List CSTArg) (pos : Nat × Nat) (mg : CSTString)
    (hf : f ∈ st.logfuncs)
    (hclass : get_logfunc_arguments st.stringVarnames st.handledExceptions pos args = .ok (lvl, mg))
    (hexc : 0 < set_exc_context_total st.handledExceptions args) :
    processCall st parent useScope fuel ⟨.name f, args, pos⟩
      = some (.ok (⟨.attribute st.loggerName "exception",
                    [(none, .simpleString
                        ("Error in function: " ++ currentExcLabel st.functionContext)),
                     (some "exc_info", .name "True")], pos⟩, st.postprocess)) := by
  simp [processCall, hf, change_logfunc_to_logger, hclass, hexc]

/-- With no open function context the exception label is `"Module"`. -/
theorem currentExcLabel_nil : currentExcLabel [] = "Module" := rfl

/-- With an innermost function whose qualified-name metadata starts with
`q`, the exception label is `q`. -/
theorem currentExcLabel_push (pre : List (List String)) (q : String) (qs : List String) :
    currentExcLabel (pre ++ [q :: qs]) = q := by
  simp [currentExcLabel, List.getLast?_concat]

/-- An element is a member of the list after Python-set insertion of
itself. -/
theorem mem_pySetAdd_self {α : Type} [DecidableEq α] (x : α) (s : List α) :
    x ∈ pySetAdd x s := by
  unfold pySetAdd
  by_cases h : x ∈ s
  · simp [h]
  · simp [h]

/-- Python-set insertion preserves existing membership. -/
theorem mem_pySetAdd_of_mem {α : Type} [DecidableEq α] {x : α} (y : α) {s : List α}
    (h : x ∈ s) : x ∈ pySetAdd y s := by
  unfold pySetAdd
  by_cases hy : y ∈ s
  · simpa [hy]
  · simp [hy, h]

/-- The buggy while-loop of `ensure_assigned_format_is_percent` never
finishes when the use-site scope is not a key of the recorded map and is
not its own parent: the loop variable is never reassigned, so every
iteration re-tests the same scope. -/
theorem scopeWalk_stuck (scopeMap : List (Nat × Option Nat)) (parent : Nat → Nat)
    (pos : Nat × Nat) (scope : Nat)
    (hmem : scopeMap.lookup scope = none) (hpar : scope ≠ parent scope) :
    ∀ fuel, scopeWalk scopeMap parent pos scope fuel = none := by
  intro fuel
  induction fuel with
  | zero => rfl
  | succ k ih => simp [scopeWalk, hmem, hpar, ih]

/-- C1 (confirmed): a call to a known log function whose message is a
`.format(...)` call on an inline literal template, whose level argument is
a recognized level literal, which references no handled exception, and
whose brace-converted template passes the trial interpolation against its
positional arguments, is replaced by a call to
`logger.<level lowercased>` whose first argument is the template with
every brace pair replaced by `%s` and whose remaining arguments are the
original format arguments; instantiated by the spec's
`eprint("x is ... is ...".format(a, b), "INFO")` example in the
witness. -/
theorem C1_known_logfunc_template_rewrite (st : RewriterState) (parent : Nat → Nat)
    (useScope fuel : Nat) (f tmpl lvl : String) (fargs : List CSTArg)
    (pos : Nat × Nat) (k1 k2 : Option String)
    (hf : f ∈ st.logfuncs) (hlvl : lvl ∈ LOGLEVELS) (htmpl : tmpl ∉ LOGLEVELS)
    (hexc : set_exc_context_total st.handledExceptions
      [(k1, .formatCall (.simpleString tmpl) fargs), (k2, .simpleString lvl)] = 0)
    (hne : fargs ≠ [])
    (hok : trial_percent_ok (pyReplaceBracePercent tmpl) fargs.length = true) :
    processCall st parent useScope fuel
      ⟨.name f, [(k1, .formatCall (.simpleString tmpl) fargs), (k2, .simpleString lvl)], pos⟩
      = some (.ok (⟨.attribute "logger" (pyLower lvl),
                    (none, .simpleString (pyReplaceBracePercent tmpl)) :: fargs, pos⟩,
                   st.postprocess)) :=
  processCall_template_normal st parent useScope fuel f tmpl lvl fargs pos k1 k2
    hf hlvl htmpl hexc hne hok

/-- Witness for C1: the spec's example call becomes
`logger.info("x is %s is %s", a, b)`. -/
theorem C1_known_logfunc_template_rewrite_witness :
    processCall { logfuncs := ["eprint"] } (fun _ => 0) 0 0
      ⟨.name "eprint",
       [(none, .formatCall (.simpleString "x is \x7b\x7d is \x7b\x7d")
           [(none, .name "a"), (none, .name "b")]),
        (none, .simpleString "INFO")], (1, 0)⟩
      = some (.ok (⟨.attribute "logger" "info",
                    [(none, .simpleString "x is %s is %s"),
                     (none, .name "a"), (none, .name "b")], (1, 0)⟩, [])) :=
  C1_known_logfunc_template_rewrite { logfuncs := ["eprint"] } (fun _ => 0) 0 0
    "eprint" "x is \x7b\x7d is \x7b\x7d" "INFO" [(none, .name "a"), (none, .name "b")]
    (1, 0) none none (by decide) (by decide) (by decide) (by decide)
    (List.cons_ne_nil _ _) (by decide)

/-- C2 (confirmed): a call to a known log function that classifies
successfully (it has a message and a level, which the claim presupposes
by speaking of those arguments being discarded) and in which at least one
argument is a bare name currently bound by an enclosing handler's `as`
clause is replaced by
`<logger name>.exception("Error in function: <label>", exc_info=True)`,
with the original message, level and file arguments discarded; the label
is `"Module"` when no function is open and the innermost function's
qualified name otherwise. -/
theorem C2_exception_reference_replacement (st : RewriterState) (parent : Nat → Nat)
    (useScope fuel : Nat) (f lvl : String) (args : List CSTArg) (pos : Nat × Nat)
    (mg : CSTString)
    (hf : f ∈ st.logfuncs)
    (hclass : get_logfunc_arguments st.stringVarnames st.handledExceptions pos args
      = .ok (lvl, mg))
    (hexc : 0 < set_exc_context_total st.handledExceptions args) :
    processCall st parent useScope fuel ⟨.name f, args, pos⟩
      = some (.ok (⟨.attribute st.loggerName "exception",
                    [(none, .simpleString
                        ("Error in function: " ++ currentExcLabel st.functionContext)),
                     (some "exc_info", .name "True")], pos⟩, st.postprocess)) ∧
    currentExcLabel [] = "Module" ∧
    (∀ (pre : List (List String)) (q : String) (qs : List String),
      currentExcLabel (pre ++ [q :: qs]) = q) :=
  ⟨processCall_exception st parent useScope fuel f lvl args pos mg hf hclass hexc,
   currentExcLabel_nil, currentExcLabel_push⟩

/-- Witness for C2: the spec's example — a call referencing caught `e`
inside `def foo`, with message, `__file__` and level arguments — becomes
`logger.exception("Error in function: foo", exc_info=True)`. -/
theorem C2_exception_reference_replacement_witness :
    processCall { logfuncs := ["eprint"], handledExceptions := ["e"],
                  functionContext := [["foo"]] } (fun _ => 0) 0 0
      ⟨.name "eprint",
       [(none, .formatCall (.simpleString "Exception: \x7b\x7d") [(none, .name "e")]),
        (none, .name "__file__"), (none, .simpleString "INFO")], (5, 4)⟩
      = some (.ok (⟨.attribute "logger" "exception",
                    [(none, .simpleString "Error in function: foo"),
                     (some "exc_info", .name "True")], (5, 4)⟩, [])) :=
  (C2_exception_reference_replacement
    { logfuncs := ["eprint"], handledExceptions := ["e"], functionContext := [["foo"]] }
    (fun _ => 0) 0 0 "eprint" "INFO"
    [(none, .formatCall (.simpleString "Exception: \x7b\x7d") [(none, .name "e")]),
     (none, .name "__file__"), (none, .simpleString "INFO")] (5, 4)
    { literal := some "Exception: \x7b\x7d", format_args := [(none, .name "e")] }
    (by decide) rfl (by decide)).1

/-- C3 counterexample: the claim says any template containing brace syntax
richer than a plain brace pair is rejected fatally, but
`eprint("<brace>0<brace>".format(), "INFO")` — a template call whose
literal template is the richer indexed field and which has no format
arguments — is rewritten without any error to a `logger.info` call whose
message still contains the indexed field verbatim. -/
theorem C3_richer_template_not_rejected_counterexample :
    processCall { logfuncs := ["eprint"] } (fun _ => 0) 0 0
      ⟨.name "eprint",
       [(none, .formatCall (.simpleString "\x7b0\x7d") []), (none, .simpleString "INFO")],
       (1, 0)⟩
      = some (.ok (⟨.attribute "logger" "info", [(none, .simpleString "\x7b0\x7d")],
                    (1, 0)⟩, [])) := rfl

/-- C3 (corrected): richer brace syntax is not itself detected; for a
percent-free inline literal template the conversion is fatal exactly when
the trial percent interpolation of the brace-substituted template against
the number of format arguments fails, and otherwise the call is rewritten
with any richer brace text emitted verbatim.  (The no-percent hypothesis
restricts the statement to the domain on which the interpolation model is
exact for CPython; it is not needed by the proof.) -/
theorem C3_conversion_fatal_iff_trial_fails (st : RewriterState) (parent : Nat → Nat)
    (useScope fuel : Nat) (f tmpl lvl : String) (fargs : List CSTArg)
    (pos : Nat × Nat) (k1 k2 : Option String)
    (hf : f ∈ st.logfuncs) (hlvl : lvl ∈ LOGLEVELS) (htmpl : tmpl ∉ LOGLEVELS)
    (hexc : set_exc_context_total st.handledExceptions
      [(k1, .formatCall (.simpleString tmpl) fargs), (k2, .simpleString lvl)] = 0)
    (hne : fargs ≠ [])
    (_hpct : '%' ∉ tmpl.data) :
    (trial_percent_ok (pyReplaceBracePercent tmpl) fargs.length = false →
      processCall st parent useScope fuel
        ⟨.name f, [(k1, .formatCall (.simpleString tmpl) fargs), (k2, .simpleString lvl)], pos⟩
        = some (.error (raise_at_node pos
            "Failed to convert str.format() call to %-style format string"))) ∧
    (trial_percent_ok (pyReplaceBracePercent tmpl) fargs.length = true →
      processCall st parent useScope fuel
        ⟨.name f, [(k1, .formatCall (.simpleString tmpl) fargs), (k2, .simpleString lvl)], pos⟩
        = some (.ok (⟨.attribute "logger" (pyLower lvl),
                      (none, .simpleString (pyReplaceBracePercent tmpl)) :: fargs, pos⟩,
                     st.postprocess))) :=
  ⟨fun hbad => processCall_template_fatal st parent useScope fuel f tmpl lvl fargs pos k1 k2
      hf hlvl htmpl hexc hne hbad,
   fun hok => processCall_template_normal st parent useScope fuel f tmpl lvl fargs pos k1 k2
      hf hlvl htmpl hexc hne hok⟩

/-- Witness for C3: an indexed-field template with one argument is fatal
(arity mismatch), while a template holding one plain brace pair plus an
indexed field, with one argument, is rewritten without error and the
indexed field survives verbatim in the emitted message. -/
theorem C3_conversion_fatal_iff_trial_fails_witness :
    processCall { logfuncs := ["eprint"] } (fun _ => 0) 0 0
      ⟨.name "eprint",
       [(none, .formatCall (.simpleString "\x7b0\x7d") [(none, .name "a")]),
        (none, .simpleString "INFO")], (1, 0)⟩
      = some (.error (.logFuncReplace
          "Failed to convert str.format() call to %-style format string :: line 1, column 0")) ∧
    processCall { logfuncs := ["eprint"] } (fun _ => 0) 0 0
      ⟨.name "eprint",
       [(none, .formatCall (.simpleString "\x7b\x7d \x7b0\x7d") [(none, .name "a")]),
        (none, .simpleString "INFO")], (1, 0)⟩
      = some (.ok (⟨.attribute "logger" "info",
                    [(none, .simpleString "%s \x7b0\x7d"), (none, .name "a")], (1, 0)⟩, [])) :=
  ⟨(C3_conversion_fatal_iff_trial_fails { logfuncs := ["eprint"] } (fun _ => 0) 0 0 "eprint"
      "\x7b0\x7d" "INFO" [(none, .name "a")] (1, 0) none none (by decide) (by decide)
      (by decide) (by decide) (List.cons_ne_nil _ _) (by decide)).1 (by decide),
   (C3_conversion_fatal_iff_trial_fails { logfuncs := ["eprint"] } (fun _ => 0) 0 0 "eprint"
      "\x7b\x7d \x7b0\x7d" "INFO" [(none, .name "a")] (1, 0) none none (by decide) (by decide)
      (by decide) (by decide) (List.cons_ne_nil _ _) (by decide)).2 (by decide)⟩

/-- C4 (code bug): `add_global_statement` appends to a plain list with no
deduplication, so scheduling the logger declaration twice makes
`leave_Module` insert it twice — the repository's own
`test_duplicate_statements` expects a single insertion, and only passes
because it seeds the scratch with a set instead of going through this
API.  By contrast `replace_logfunc`, which uses a Python set, really is
idempotent. -/
theorem C4_duplicate_global_statement_inserted_twice :
    (leave_Module_addGlobal
      (add_global_statement
        (add_global_statement [] "logger = logging.getLogger(__name__)")
        "logger = logging.getLogger(__name__)") [] []).count
      (Stmt.parsed "logger = logging.getLogger(__name__)") = 2 ∧
    (∀ (names : List String) (nm : String),
      replace_logfunc (replace_logfunc names nm) nm = replace_logfunc names nm) := by
  constructor
  · decide
  · intro names nm
    by_cases h : nm ∈ names
    · simp [replace_logfunc, pySetAdd, h]
    · simp [replace_logfunc, pySetAdd, h]

/-- C5 counterexample: re-running the transform on already-converted
output is not error-free — the module-entry collision check of
`check_global_scope_for_logger` sees the `logger = ...` binding the first
run inserted at module scope and raises, even though every call in the
module is an attribute call the rewriter would leave untouched. -/
theorem C5_rerun_raises_collision_counterexample :
    transformModule {} (fun k => k) 0 1 []
      { scopeNames := ["logger"],
        calls := [⟨.attribute "logger" "info", [(none, .simpleString "x is %s")], (3, 0)⟩] }
      = some (.error (.logFuncReplace "Module scope already contains the name logger")) := rfl

/-- C5 (corrected): re-running the transform on a module whose global
scope binds the configured logger name aborts with the collision error
raised at module entry; the call-rewriting itself would be a no-op, since
`logger.<level>(...)` calls (attribute callees) and calls to names no
longer in the known-logfunc registry are both returned unchanged. -/
theorem C5_rerun_aborts_on_logger_binding (st : RewriterState) (parent : Nat → Nat)
    (useScope fuel : Nat) (scheduled : List String) (mdl : PyModule)
    (hcol : st.loggerName ∈ mdl.scopeNames) :
    transformModule st parent useScope fuel scheduled mdl
      = some (.error (.logFuncReplace
          ("Module scope already contains the name " ++ st.loggerName))) ∧
    (∀ (b a : String) (args : List CSTArg) (pos : Nat × Nat),
      processCall st parent useScope fuel ⟨.attribute b a, args, pos⟩
        = some (.ok (⟨.attribute b a, args, pos⟩, st.postprocess))) ∧
    (∀ (f : String) (args : List CSTArg) (pos : Nat × Nat), f ∉ st.logfuncs →
      processCall st parent useScope fuel ⟨.name f, args, pos⟩
        = some (.ok (⟨.name f, args, pos⟩, st.postprocess))) := by
  refine ⟨?_, ?_, ?_⟩
  · simp [transformModule, check_global_scope_for_logger, hcol]
  · intro b a args pos; rfl
  · intro f args pos hnf; simp [processCall, hnf]

/-- Witness for C5: a converted module binding `logger` at global scope
aborts the re-run with the collision error. -/
theorem C5_rerun_aborts_on_logger_binding_witness :
    transformModule {} (fun k => k) 0 1 []
      { scopeNames := ["logger", "foo"],
        calls := [⟨.attribute "logger" "error", [(none, .simpleString "outer exception")],
                  (9, 8)⟩] }
      = some (.error (.logFuncReplace "Module scope already contains the name logger")) :=
  (C5_rerun_aborts_on_logger_binding {} (fun k => k) 0 1 []
    { scopeNames := ["logger", "foo"],
      calls := [⟨.attribute "logger" "error", [(none, .simpleString "outer exception")],
                (9, 8)⟩] }
    (by decide)).1

/-- C6 (code bug): on a second log-level literal the source executes
`self.raise_at_node("Multiple loglevels in logfunc call")`, omitting the
`msg` parameter of `raise_at_node(self, node, msg)`, so the Python
runtime raises a `TypeError` before any positioned
`LogFuncReplaceException` can be produced; the transform still aborts
with no replacement, but not with the claimed positioned fatal error. -/
theorem C6_multiple_loglevels_raises_typeerror :
    get_logfunc_arguments [] [] (1, 0)
      [(none, .simpleString "boom"), (none, .simpleString "INFO"),
       (none, .simpleString "DEBUG")]
      = .error (.pythonTypeError
          "raise_at_node() missing 1 required positional argument: msg") := rfl

/-- C7 counterexample: tracking uses a flat set
(`_handled_exceptions.add`/`discard`), so after entering an outer handler
binding `e`, then entering and leaving an inner handler binding the same
`e`, the name is no longer classified as a caught exception even though
the traversal is still inside the outer handler — its status is not
restored as the claim requires. -/
theorem C7_nested_same_name_not_restored_counterexample :
    "e" ∉ pop_named_exception
      (push_named_exception (push_named_exception [] "e") "e") "e" := by decide

/-- C7 (corrected): an identifier stays classified as a caught exception
across a nested handler only when the nested handler binds a different
name; when nested handlers reuse the same name, leaving the inner handler
discards the name from the flat set and it loses caught-exception status
for the remainder of the outer handler's body. -/
theorem C7_shadowing_only_for_distinct_names (handled : List String) (a b : String)
    (hne : a ≠ b) :
    a ∈ pop_named_exception (push_named_exception (push_named_exception handled a) b) b ∧
    a ∉ pop_named_exception (push_named_exception (push_named_exception handled a) a) a := by
  constructor
  · have ha : a ∈ push_named_exception (push_named_exception handled a) b :=
      mem_pySetAdd_of_mem b (mem_pySetAdd_self a handled)
    simp [pop_named_exception, List.mem_filter, ha, hne]
  · simp [pop_named_exception, List.mem_filter]

/-- Witness for C7: with distinct names `e`/`f` the outer binding
survives the inner handler, while reusing `e` loses it. -/
theorem C7_shadowing_only_for_distinct_names_witness :
    "e" ∈ pop_named_exception (push_named_exception (push_named_exception [] "e") "f") "f" ∧
    "e" ∉ pop_named_exception (push_named_exception (push_named_exception [] "e") "e") "e" :=
  C7_shadowing_only_for_distinct_names [] "e" "f" (by decide)

/-- C8 (confirmed): the normal-branch replacement hardcodes the base name
`"logger"` (line 447) regardless of the configured logger name, while the
exception-branch replacement and the scheduled module-level `getLogger`
assignment both use the configured name, so the two branches reference
different logger objects whenever the configured name differs from
`"logger"`. -/
theorem C8_normal_branch_hardcodes_logger_name (st : RewriterState) (parent : Nat → Nat)
    (useScope fuel : Nat) (f tmpl lvl : String) (fargs : List CSTArg) (pos : Nat × Nat)
    (k1 k2 : Option String) (fE lvlE : String) (argsE : List CSTArg) (posE : Nat × Nat)
    (mgE : CSTString) (gnames scheduled : List String)
    (hf : f ∈ st.logfuncs) (hlvl : lvl ∈ LOGLEVELS) (htmpl : tmpl ∉ LOGLEVELS)
    (hexc : set_exc_context_total st.handledExceptions
      [(k1, .formatCall (.simpleString tmpl) fargs), (k2, .simpleString lvl)] = 0)
    (hne : fargs ≠ [])
    (hok : trial_percent_ok (pyReplaceBracePercent tmpl) fargs.length = true)
    (hfE : fE ∈ st.logfuncs)
    (hclassE : get_logfunc_arguments st.stringVarnames st.handledExceptions posE argsE
      = .ok (lvlE, mgE))
    (hexcE : 0 < set_exc_context_total st.handledExceptions argsE)
    (hg : st.loggerName ∉ gnames) :
    processCall st parent useScope fuel
      ⟨.name f, [(k1, .formatCall (.simpleString tmpl) fargs), (k2, .simpleString lvl)], pos⟩
      = some (.ok (⟨.attribute "logger" (pyLower lvl),
                    (none, .simpleString (pyReplaceBracePercent tmpl)) :: fargs, pos⟩,
                   st.postprocess)) ∧
    processCall st parent useScope fuel ⟨.name fE, argsE, posE⟩
      = some (.ok (⟨.attribute st.loggerName "exception",
                    [(none, .simpleString
                        ("Error in function: " ++ currentExcLabel st.functionContext)),
                     (some "exc_info", .name "True")], posE⟩, st.postprocess)) ∧
    check_global_scope_for_logger st.loggerName gnames scheduled
      = .ok (scheduled ++ [st.loggerName ++ " = logging.getLogger(__name__)"]) ∧
    (st.loggerName ≠ "logger" →
      CSTFunc.attribute "logger" (pyLower lvl) ≠ CSTFunc.attribute st.loggerName "exception") := by
  refine ⟨processCall_template_normal st parent useScope fuel f tmpl lvl fargs pos k1 k2
      hf hlvl htmpl hexc hne hok,
    processCall_exception st parent useScope fuel fE lvlE argsE posE mgE hfE hclassE hexcE,
    ?_, ?_⟩
  · simp [check_global_scope_for_logger, add_global_statement, hg]
  · intro hnl heq
    injection heq with h1 h2
    exact hnl h1.symm

/-- Witness for C8: with configured logger name `"log"`, the normal branch
still emits base `logger`, the exception branch emits base `log`, and the
scheduled statement is `log = logging.getLogger(__name__)`. -/
theorem C8_normal_branch_hardcodes_logger_name_witness :
    processCall { logfuncs := ["eprint"], loggerName := "log",
                  handledExceptions := ["err"] } (fun _ => 0) 0 0
      ⟨.name "eprint",
       [(none, .formatCall (.simpleString "x is \x7b\x7d") [(none, .name "a")]),
        (none, .simpleString "WARN")], (1, 0)⟩
      = some (.ok (⟨.attribute "logger" "warn",
                    [(none, .simpleString "x is %s"), (none, .name "a")], (1, 0)⟩, [])) ∧
    processCall { logfuncs := ["eprint"], loggerName := "log",
                  handledExceptions := ["err"] } (fun _ => 0) 0 0
      ⟨.name "eprint",
       [(none, .formatCall (.simpleString "oops: \x7b\x7d") [(none, .name "err")]),
        (none, .simpleString "ERROR")], (2, 0)⟩
      = some (.ok (⟨.attribute "log" "exception",
                    [(none, .simpleString "Error in function: Module"),
                     (some "exc_info", .name "True")], (2, 0)⟩, [])) ∧
    check_global_scope_for_logger "log" ["foo", "bar"] []
      = .ok ["log = logging.getLogger(__name__)"] ∧
    ("log" ≠ "logger" →
      CSTFunc.attribute "logger" (pyLower "WARN") ≠ CSTFunc.attribute "log" "exception") :=
  C8_normal_branch_hardcodes_logger_name
    { logfuncs := ["eprint"], loggerName := "log", handledExceptions := ["err"] }
    (fun _ => 0) 0 0 "eprint" "x is \x7b\x7d" "WARN" [(none, .name "a")] (1, 0) none none
    "eprint" "ERROR"
    [(none, .formatCall (.simpleString "oops: \x7b\x7d") [(none, .name "err")]),
     (none, .simpleString "ERROR")] (2, 0)
    { literal := some "oops: \x7b\x7d", format_args := [(none, .name "err")] }
    ["foo", "bar"] [] (by decide) (by decide) (by decide) (by decide)
    (List.cons_ne_nil _ _) (by decide) (by decide) rfl (by decide) (by decide)

/-- C9 (confirmed): `change_logfunc_to_logger` calls
`get_logfunc_arguments` before inspecting the popped exception-reference
counter, so a call inside a handler that references the caught exception
but has neither a level literal nor a message candidate raises the
positioned "Malformed logfunc call" error instead of producing the
exception-log replacement — even though its exception-reference count is
positive. -/
theorem C9_classification_precedes_exception_check (st : RewriterState)
    (parent : Nat → Nat) (useScope fuel : Nat) (f en : String) (pos : Nat × Nat)
    (hf : f ∈ st.logfuncs) (hen : en ∈ st.handledExceptions)
    (hvar : st.stringVarnames.lookup en = none) :
    processCall st parent useScope fuel ⟨.name f, [(none, .name en)], pos⟩
      = some (.error (raise_at_node pos "Malformed logfunc call")) ∧
    0 < set_exc_context_total st.handledExceptions [(none, .name en)] := by
  constructor
  · simp [processCall, hf, change_logfunc_to_logger, get_logfunc_arguments,
      classify_logfunc_args, get_string_components, hvar, hen]
  · simp [set_exc_context_total, set_exc_context_args, set_exc_context_expr,
      argNameExcRef, hen]

/-- Witness for C9: `eprint(e)` inside a handler binding `e` raises the
malformed-call error although the call references the caught exception. -/
theorem C9_classification_precedes_exception_check_witness :
    processCall { logfuncs := ["eprint"], handledExceptions := ["e"] } (fun _ => 0) 0 0
      ⟨.name "eprint", [(none, .name "e")], (4, 4)⟩
      = some (.error (.logFuncReplace "Malformed logfunc call :: line 4, column 4")) ∧
    0 < set_exc_context_total ["e"] [(none, .name "e")] :=
  C9_classification_precedes_exception_check
    { logfuncs := ["eprint"], handledExceptions := ["e"] } (fun _ => 0) 0 0 "eprint" "e"
    (4, 4) (by decide) (by decide) rfl

/-- C10 (code bug): the scope-resolution loop of
`ensure_assigned_format_is_percent` computes `parent = scope.parent` but
never assigns it back to `scope`, so whenever the use-site scope is not a
key of the recorded map and is not its own parent (for example a template
variable assigned at module scope but used inside a function) the loop
runs forever: no amount of fuel makes it finish, contradicting the
claimed find-or-raise termination. -/
theorem C10_scope_resolution_never_terminates (vars : VarMap)
    (postprocess : List (Option Nat)) (parent : Nat → Nat) (pos : Nat × Nat)
    (useScope : Nat) (nm : String) (scopeMap : List (Nat × Option Nat))
    (hmap : vars.lookup nm = some (some scopeMap))
    (hmem : scopeMap.lookup useScope = none)
    (hpar : useScope ≠ parent useScope) :
    ∀ fuel, ensure_assigned_format_is_percent vars postprocess parent pos useScope nm fuel
      = none := by
  intro fuel
  simp [ensure_assigned_format_is_percent, hmap,
    scopeWalk_stuck scopeMap parent pos useScope hmem hpar fuel]

/-- Witness for C10: the registry binds `msg` in scope 0 (module scope);
resolving a use in scope 1 (a function body, whose parent is scope 0)
exhausts any fuel. -/
theorem C10_scope_resolution_never_terminates_witness :
    ([("msg", some [((0 : Nat), some (7 : Nat))])] : VarMap).lookup "msg"
      = some (some [(0, some 7)]) ∧
    ([((0 : Nat), some (7 : Nat))]).lookup (1 : Nat) = none ∧
    (1 : Nat) ≠ (fun _ : Nat => (0 : Nat)) 1 ∧
    ensure_assigned_format_is_percent [("msg", some [(0, some 7)])] [] (fun _ => 0)
      (3, 8) 1 "msg" 9 = none :=
  ⟨rfl, rfl, by decide,
   C10_scope_resolution_never_terminates [("msg", some [(0, some 7)])] []
     (fun _ => 0) (3, 8) 1 "msg" [(0, some 7)] rfl rfl (by decide) 9⟩
